import Mathlib

/-!
Shallow embedding of the zOS SDK capability router (`useNative` hook).

The source is a React hook that detects a Tauri native shell and exposes a
uniform capability surface (file I/O, notifications, clipboard, dialogs,
open-external).  Detection reads two ambient globals:
`window.__TAURI_NATIVE__` (a boolean marker) and `window.__TAURI__` (the
invoke object).  Every operation's body starts with `if (window.__TAURI__)`
and otherwise takes a browser fallback; the browser file operations use
`localStorage` with keys `zos:file:<path>`.

The embedding represents the ambient environment as an explicit record,
`localStorage` as a function from keys to optional strings, the native
bridge modules as function parameters (they are external collaborators),
and promise outcomes as explicit result types.
-/

namespace ZosSdk

/-- The ambient browser/host environment read by the hook.
`tauriNative` is the truthiness of `window.__TAURI_NATIVE__`;
`tauri` is the presence (truthiness) of `window.__TAURI__`;
`notificationInWindow` is `'Notification' in window`;
`clipboardInNavigator` is `'clipboard' in navigator`. -/
structure Env where
  tauriNative : Bool
  tauri : Bool
  notificationInWindow : Bool
  clipboardInNavigator : Bool
deriving DecidableEq, Repr

/-- The `NativeCapabilities` record of the source (six boolean flags). -/
structure NativeCapabilities where
  isNative : Bool
  hasFileSystem : Bool
  hasNotifications : Bool
  hasClipboard : Bool
  hasDialog : Bool
  hasShell : Bool
deriving DecidableEq, Repr

/-- The initial `useState` value in `useNative`: every flag `false`. -/
def initialCapabilities : NativeCapabilities :=
  { isNative := false
    hasFileSystem := false
    hasNotifications := false
    hasClipboard := false
    hasDialog := false
    hasShell := false }

/-- Function `checkCapabilities` from the source (part_000 lines 58-73):
`isNative = !!window.__TAURI_NATIVE__ || !!window.__TAURI__`, and the six
flags are filled from it and from browser API presence. -/
def checkCapabilities (env : Env) : NativeCapabilities :=
  let isNative := env.tauriNative || env.tauri
  { isNative := isNative
    hasFileSystem := isNative
    hasNotifications := isNative || env.notificationInWindow
    hasClipboard := isNative || env.clipboardInNavigator
    hasDialog := isNative
    hasShell := isNative }

/-- The router state of the hook: the `useState` cell plus whether the
one-time `useEffect` (empty dependency array) has already run. -/
structure RouterState where
  detected : Bool
  capabilities : NativeCapabilities
deriving DecidableEq, Repr

/-- State at mount: effect not yet run, capabilities at their `useState`
initial value. -/
def initialState : RouterState :=
  { detected := false, capabilities := initialCapabilities }

/-- The only transition of the hook: the one-time `useEffect` runs
`checkCapabilities` and stores the result.  The empty dependency array
means it fires once per session, from the not-yet-detected state. -/
inductive Step (env : Env) : RouterState → RouterState → Prop
  | detect (s : RouterState) (h : s.detected = false) :
      Step env s { detected := true, capabilities := checkCapabilities env }

/-- Model of `localStorage`: a partial map from keys to stored strings. -/
def Store : Type := String → Option String

/-- A fresh `localStorage` with no entries. -/
def emptyStore : Store := fun _ => none

/-- Operation `localStorage.setItem`: store `v` under `k`, leaving other
keys alone. -/
def setItem (s : Store) (k v : String) : Store :=
  fun key => if key = k then some v else s key

/-- JavaScript `x || d` on a nullable string `x`: `null` and the empty
string are falsy, any other string is returned as is. -/
def jsOrElse (x : Option String) (d : String) : String :=
  match x with
  | none => d
  | some v => if v = "" then d else v

/-- The storage key used by the browser file fallback:
`` `zos:file:${path}` ``. -/
def fileKey (path : String) : String := "zos:file:" ++ path

/-- Browser fallback of `readFile` (part_000 line 84):
`localStorage.getItem(`zos:file:${path}`) || ''`. -/
def readFileBrowser (s : Store) (path : String) : String :=
  jsOrElse (s (fileKey path)) ""

/-- Browser fallback of `readFile` with its (unchanged) store made
explicit: the body performs a single `getItem` and no write. -/
def readFileBrowserSt (s : Store) (path : String) : String × Store :=
  (readFileBrowser s path, s)

/-- Browser fallback of `writeFile` (part_000 line 95):
`localStorage.setItem(`zos:file:${path}`, content)`. -/
def writeFileBrowser (s : Store) (path content : String) : Store :=
  setItem s (fileKey path) content

/-- Per-operation native/browser selector of `readFile` (line 77): the
body dispatches on `window.__TAURI__` alone. -/
def readFileUsesNative (env : Env) : Bool := env.tauri

/-- Selector of `writeFile` (line 88): `if (window.__TAURI__)`. -/
def writeFileUsesNative (env : Env) : Bool := env.tauri

/-- Selector of `notify` (line 100): `if (window.__TAURI__)`. -/
def notifyUsesNative (env : Env) : Bool := env.tauri

/-- Selector of `copyToClipboard` (line 119): `if (window.__TAURI__)`. -/
def copyToClipboardUsesNative (env : Env) : Bool := env.tauri

/-- Selector of `readFromClipboard` (line 129): `if (window.__TAURI__)`. -/
def readFromClipboardUsesNative (env : Env) : Bool := env.tauri

/-- Selector of `showOpenDialog` (line 139): `if (window.__TAURI__)`. -/
def showOpenDialogUsesNative (env : Env) : Bool := env.tauri

/-- Selector of `showSaveDialog` (line 163): `if (window.__TAURI__)`. -/
def showSaveDialogUsesNative (env : Env) : Bool := env.tauri

/-- Selector of `openExternal` (line 174): `if (window.__TAURI__)`. -/
def openExternalUsesNative (env : Env) : Bool := env.tauri

/-- Full `readFile`: native path delegates to the bridge module
(`mod.readTextFile`, an external collaborator passed as `nativeRead`,
which may reject with an opaque error `ε`); browser path reads the
local store and cannot reject. -/
def readFile {ε : Type} (env : Env) (nativeRead : String → Except ε String)
    (s : Store) (path : String) : Except ε String :=
  if env.tauri then nativeRead path
  else Except.ok (readFileBrowser s path)

/-- Full `writeFile`, returning the updated browser store.  The native
path (`mod.writeTextFile`) does not touch `localStorage`, so on success it
returns the store unchanged. -/
def writeFile {ε : Type} (env : Env)
    (nativeWrite : String → String → Except ε Unit)
    (s : Store) (path content : String) : Except ε Store :=
  if env.tauri then
    match nativeWrite path content with
    | Except.ok _ => Except.ok s
    | Except.error e => Except.error e
  else Except.ok (writeFileBrowser s path content)

/-- A sequence of browser-fallback writes applied in order to a store. -/
def applyWrites (ws : List (String × String)) (s : Store) : Store :=
  ws.foldl (fun st pc => writeFileBrowser st pc.1 pc.2) s

end ZosSdk

namespace ZosSdk

/-- Web Notifications permission values. -/
inductive Permission where
  | granted
  | denied
  | default
deriving DecidableEq, Repr

/-- Browser `Notification.requestPermission()`: when permission was
already decided the promise resolves with that decision without
prompting; when undetermined it resolves with the user's choice (which
may itself be `default` if the prompt is dismissed). -/
def requestPermission (current userChoice : Permission) : Permission :=
  match current with
  | Permission.granted => Permission.granted
  | Permission.denied => Permission.denied
  | Permission.default => userChoice

/-- Observable effect of the browser `notify` fallback: the notification
displayed (title and optional body), if any, and whether
`requestPermission` was invoked. -/
structure NotifyEffect where
  displayed : Option (String × Option String)
  requested : Bool
deriving DecidableEq, Repr

/-- Browser fallback of `notify` (part_000 lines 107-114): if the
Notification API exists and permission is already granted, display
immediately; else if the API exists, request permission and display only
when the result is granted; else do nothing.  No branch throws. -/
def notifyBrowser (env : Env) (perm userChoice : Permission)
    (title : String) (body : Option String) : NotifyEffect :=
  if env.notificationInWindow && decide (perm = Permission.granted) then
    { displayed := some (title, body), requested := false }
  else if env.notificationInWindow then
    if requestPermission perm userChoice = Permission.granted then
      { displayed := some (title, body), requested := true }
    else
      { displayed := none, requested := true }
  else
    { displayed := none, requested := false }

/-- Full `notify`: native path delegates to the bridge notification
module; the browser path never rejects. -/
def notify {ε : Type} (env : Env)
    (nativeNotify : String → Option String → Except ε Unit)
    (perm userChoice : Permission) (title : String) (body : Option String) :
    Except ε NotifyEffect :=
  if env.tauri then
    match nativeNotify title body with
    | Except.ok _ => Except.ok { displayed := some (title, body), requested := false }
    | Except.error e => Except.error e
  else Except.ok (notifyBrowser env perm userChoice title body)

/-- Outcome of a promise: settled with a value, settled with a rejection,
or never settled. -/
inductive PromiseState (α : Type) where
  | resolved (a : α)
  | rejected
  | pending
deriving DecidableEq, Repr

/-- What the user does with the browser file-selection control: pick some
files (firing the `change` event with their names) or dismiss the picker.
Per the HTML standard, dismissing the picker without changing the
selection fires only a `cancel` event, never `change`. -/
inductive FileDialogAction where
  | selected (files : List String)
  | cancelled
deriving DecidableEq, Repr

/-- Browser fallback of `showOpenDialog` (part_000 lines 150-159): a
promise that is resolved only inside the `input.onchange` handler with
the names of the chosen files.  The code installs no `cancel` handler, so
dismissing the picker settles nothing. -/
def showOpenDialogBrowser (action : FileDialogAction) : PromiseState (List String) :=
  match action with
  | FileDialogAction.selected files => PromiseState.resolved files
  | FileDialogAction.cancelled => PromiseState.pending

/-- Result shape of the native `open` dialog: `null`, one path, or a
list of paths. -/
inductive NativeOpenResult where
  | nullResult
  | single (path : String)
  | many (paths : List String)
deriving DecidableEq, Repr

/-- Full `showOpenDialog`: the native path normalises the bridge result
(`null` to `[]`, a single path to a singleton); the browser path is the
file-input fallback. -/
def showOpenDialog {ε : Type} (env : Env)
    (nativeOpen : Except ε NativeOpenResult)
    (action : FileDialogAction) : PromiseState (List String) :=
  if env.tauri then
    match nativeOpen with
    | Except.ok NativeOpenResult.nullResult => PromiseState.resolved []
    | Except.ok (NativeOpenResult.single p) => PromiseState.resolved [p]
    | Except.ok (NativeOpenResult.many ps) => PromiseState.resolved ps
    | Except.error _ => PromiseState.rejected
  else showOpenDialogBrowser action

end ZosSdk

namespace ZosSdk

/-- Keys of distinct paths are distinct: `zos:file:` prepending is
injective. -/
theorem fileKey_injective {P Q : String} (h : fileKey P = fileKey Q) : P = Q := by
  unfold fileKey at h
  have hd : ("zos:file:").data ++ P.data = ("zos:file:").data ++ Q.data := by
    have := congrArg String.data h
    simpa [String.data_append] using this
  have : P.data = Q.data := List.append_cancel_left hd
  cases P; cases Q; exact congrArg String.mk this

/-- Reading back the key just written yields the written content. -/
theorem readFileBrowser_write_same (s : Store) (P C : String) :
    readFileBrowser (writeFileBrowser s P C) P = C := by
  unfold readFileBrowser writeFileBrowser setItem jsOrElse
  simp only [if_pos rfl]
  split <;> simp_all

/-- A sequence of browser writes to paths other than `P` leaves the key
of `P` untouched. -/
theorem applyWrites_other_paths (P : String) :
    ∀ (ws : List (String × String)) (s : Store),
      (∀ pc ∈ ws, pc.1 ≠ P) → applyWrites ws s (fileKey P) = s (fileKey P) := by
  intro ws
  induction ws with
  | nil => intro s _; rfl
  | cons pc tl ih =>
    intro s h
    have hpc : pc.1 ≠ P := h pc (List.mem_cons_self pc tl)
    have htl : ∀ q ∈ tl, q.1 ≠ P := fun q hq => h q (List.mem_cons_of_mem pc hq)
    have hkey : fileKey P ≠ fileKey pc.1 := by
      intro hk
      exact hpc (fileKey_injective hk.symm)
    calc applyWrites (pc :: tl) s (fileKey P)
        = applyWrites tl (writeFileBrowser s pc.1 pc.2) (fileKey P) := rfl
      _ = writeFileBrowser s pc.1 pc.2 (fileKey P) := ih _ htl
      _ = s (fileKey P) := by
          unfold writeFileBrowser setItem
          simp [hkey]

end ZosSdk

namespace ZosSdk

/-- C3: in a browser-fallback session (no `__TAURI__` invoke object),
`writeFile P C` succeeds and updates the store, and `readFile P` on the
resulting store resolves to exactly `C`, for every path and every content
string. -/
theorem write_then_read_roundtrip {ε : Type} (env : Env)
    (nativeWrite : String → String → Except ε Unit)
    (nativeRead : String → Except ε String)
    (s : Store) (P C : String) (h : env.tauri = false) :
    writeFile env nativeWrite s P C = Except.ok (writeFileBrowser s P C) ∧
    readFile env nativeRead (writeFileBrowser s P C) P = Except.ok C := by
  constructor
  · simp [writeFile, h]
  · simp [readFile, h, readFileBrowser_write_same]

/-- Witness for C3 at the spec scenario: `writeFile('/test/file.txt',
'content')` then `readFile('/test/file.txt')` yields `'content'`. -/
theorem write_then_read_roundtrip_witness :
    (Env.mk false false false false).tauri = false ∧
    (writeFile (Env.mk false false false false)
        (fun _ _ => Except.ok () : String → String → Except Unit Unit)
        emptyStore "/test/file.txt" "content" =
      Except.ok (writeFileBrowser emptyStore "/test/file.txt" "content") ∧
     readFile (Env.mk false false false false)
        (fun _ => Except.ok "" : String → Except Unit String)
        (writeFileBrowser emptyStore "/test/file.txt" "content") "/test/file.txt" =
      Except.ok "content") :=
  ⟨rfl, write_then_read_roundtrip (Env.mk false false false false)
    (fun _ _ => Except.ok ()) (fun _ => Except.ok "")
    emptyStore "/test/file.txt" "content" rfl⟩

/-- C4: whenever a native marker (either `__TAURI_NATIVE__` or the
`__TAURI__` invoke object) is present at initialization, all six
capability flags computed by `checkCapabilities` are true, whatever the
browser feature support. -/
theorem native_marker_all_flags (env : Env)
    (h : env.tauriNative = true ∨ env.tauri = true) :
    checkCapabilities env =
      { isNative := true, hasFileSystem := true, hasNotifications := true,
        hasClipboard := true, hasDialog := true, hasShell := true } := by
  obtain ⟨a, b, c, d⟩ := env
  rcases h with h | h <;> subst h <;> simp [checkCapabilities]

/-- Witness for C4: native marker present, browser supports nothing. -/
theorem native_marker_all_flags_witness :
    ((Env.mk true false false false).tauriNative = true ∨
      (Env.mk true false false false).tauri = true) ∧
    checkCapabilities (Env.mk true false false false) =
      { isNative := true, hasFileSystem := true, hasNotifications := true,
        hasClipboard := true, hasDialog := true, hasShell := true } :=
  ⟨Or.inl rfl, native_marker_all_flags (Env.mk true false false false) (Or.inl rfl)⟩

/-- C5: with no native marker present, `isNative`, `hasFileSystem`,
`hasDialog` and `hasShell` are false, `hasClipboard` mirrors the browser
clipboard API and `hasNotifications` mirrors the Notification API. -/
theorem no_marker_browser_flags (env : Env)
    (h1 : env.tauriNative = false) (h2 : env.tauri = false) :
    checkCapabilities env =
      { isNative := false, hasFileSystem := false,
        hasNotifications := env.notificationInWindow,
        hasClipboard := env.clipboardInNavigator,
        hasDialog := false, hasShell := false } := by
  obtain ⟨a, b, c, d⟩ := env
  subst h1; subst h2
  simp [checkCapabilities]

/-- Witness for C5 at the spec scenario: no native marker, clipboard
available, yielding `isNative = false` and `hasClipboard = true`. -/
theorem no_marker_browser_flags_witness :
    (Env.mk false false false true).tauriNative = false ∧
    (Env.mk false false false true).tauri = false ∧
    checkCapabilities (Env.mk false false false true) =
      { isNative := false, hasFileSystem := false, hasNotifications := false,
        hasClipboard := true, hasDialog := false, hasShell := false } :=
  ⟨rfl, rfl, no_marker_browser_flags (Env.mk false false false true) rfl rfl⟩

/-- C6: in a browser-fallback session started from an empty store, after
any sequence of writes none of which targets path `P`, `readFile P`
resolves (never rejects) to the empty string. -/
theorem read_unwritten_path_empty {ε : Type} (env : Env)
    (nativeRead : String → Except ε String)
    (ws : List (String × String)) (P : String)
    (henv : env.tauri = false) (h : ∀ pc ∈ ws, pc.1 ≠ P) :
    readFile env nativeRead (applyWrites ws emptyStore) P = Except.ok "" := by
  have hkey : applyWrites ws emptyStore (fileKey P) = none :=
    applyWrites_other_paths P ws emptyStore h
  simp [readFile, henv, readFileBrowser, hkey, jsOrElse]

/-- Witness for C6: one write to a different path, then reading the
never-written path gives the empty string. -/
theorem read_unwritten_path_empty_witness :
    (Env.mk false false false false).tauri = false ∧
    (∀ pc ∈ [("/other.txt", "data")], pc.1 ≠ "/test/file.txt") ∧
    readFile (Env.mk false false false false)
        (fun _ => Except.ok "" : String → Except Unit String)
        (applyWrites [("/other.txt", "data")] emptyStore) "/test/file.txt" =
      Except.ok "" := by
  refine ⟨rfl, ?_, ?_⟩
  · intro pc hpc
    simp at hpc
    simp [hpc]
  · exact read_unwritten_path_empty (Env.mk false false false false)
      (fun _ => Except.ok "") [("/other.txt", "data")] "/test/file.txt" rfl
      (by intro pc hpc; simp at hpc; simp [hpc])

/-- C8: the browser `writeFile P C` stores exactly `C` under the key
`zos:file:P` and changes no other key; the browser `readFile` leaves the
store unchanged; every key changed by a browser write has the
`zos:file:` format (it is the key of the written path). -/
theorem write_frame_effect (s : Store) (P C : String) :
    writeFileBrowser s P C (fileKey P) = some C ∧
    (∀ k, k ≠ fileKey P → writeFileBrowser s P C k = s k) ∧
    (∀ path, (readFileBrowserSt s path).2 = s) ∧
    (∀ k, writeFileBrowser s P C k ≠ s k → k = fileKey P) := by
  refine ⟨?_, ?_, ?_, ?_⟩
  · simp [writeFileBrowser, setItem]
  · intro k hk
    simp [writeFileBrowser, setItem, hk]
  · intro path
    rfl
  · intro k hk
    by_contra hne
    exact hk (by simp [writeFileBrowser, setItem, hne])

/-- Witness for C8 at a concrete store, path and content. -/
theorem write_frame_effect_witness :
    writeFileBrowser emptyStore "/a" "x" (fileKey "/a") = some "x" ∧
    (∀ k, k ≠ fileKey "/a" → writeFileBrowser emptyStore "/a" "x" k = emptyStore k) ∧
    (∀ path, (readFileBrowserSt emptyStore path).2 = emptyStore) ∧
    (∀ k, writeFileBrowser emptyStore "/a" "x" k ≠ emptyStore k → k = fileKey "/a") :=
  write_frame_effect emptyStore "/a" "x"

end ZosSdk

namespace ZosSdk

/-- C7: in a browser-fallback session, for any non-empty title and
optional body, `notify` always resolves (never rejects); with the
Notification API present: if permission is already granted the
notification is displayed immediately without requesting permission; if
permission is undetermined, permission is requested and the notification
is displayed exactly when the user grants it; if permission is denied,
nothing is displayed and no error is raised. -/
theorem notify_never_fails {ε : Type} (env : Env)
    (nativeNotify : String → Option String → Except ε Unit)
    (perm userChoice : Permission) (title : String) (body : Option String)
    (henv : env.tauri = false) (_htitle : title ≠ "") :
    notify env nativeNotify perm userChoice title body =
      Except.ok (notifyBrowser env perm userChoice title body) ∧
    (env.notificationInWindow = true → perm = Permission.granted →
      notifyBrowser env perm userChoice title body =
        { displayed := some (title, body), requested := false }) ∧
    (env.notificationInWindow = true → perm = Permission.default →
      (notifyBrowser env perm userChoice title body).requested = true ∧
      ((notifyBrowser env perm userChoice title body).displayed = some (title, body) ↔
        userChoice = Permission.granted)) ∧
    (perm = Permission.denied →
      (notifyBrowser env perm userChoice title body).displayed = none) := by
  refine ⟨?_, ?_, ?_, ?_⟩
  · simp [notify, henv]
  · intro hw hg
    subst hg
    simp [notifyBrowser, hw]
  · intro hw hd
    subst hd
    cases userChoice <;> simp [notifyBrowser, hw, requestPermission]
  · intro hd
    subst hd
    cases hw : env.notificationInWindow <;>
      simp [notifyBrowser, hw, requestPermission]

/-- Witness for C7: browser session, Notification API present,
permission undetermined, user grants; the notification is shown after a
permission request and the promise resolves. -/
theorem notify_never_fails_witness :
    (Env.mk false false true false).tauri = false ∧
    ("hello" : String) ≠ "" ∧
    (notify (Env.mk false false true false)
        (fun _ _ => Except.ok () : String → Option String → Except Unit Unit)
        Permission.default Permission.granted "hello" none =
      Except.ok (notifyBrowser (Env.mk false false true false)
        Permission.default Permission.granted "hello" none) ∧
    ((Env.mk false false true false).notificationInWindow = true →
      Permission.default = Permission.granted →
      notifyBrowser (Env.mk false false true false)
          Permission.default Permission.granted "hello" none =
        { displayed := some ("hello", none), requested := false }) ∧
    ((Env.mk false false true false).notificationInWindow = true →
      Permission.default = Permission.default →
      (notifyBrowser (Env.mk false false true false)
          Permission.default Permission.granted "hello" none).requested = true ∧
      ((notifyBrowser (Env.mk false false true false)
          Permission.default Permission.granted "hello" none).displayed =
            some ("hello", none) ↔
        Permission.granted = Permission.granted)) ∧
    (Permission.default = Permission.denied →
      (notifyBrowser (Env.mk false false true false)
          Permission.default Permission.granted "hello" none).displayed = none)) :=
  ⟨rfl, by decide,
    notify_never_fails (Env.mk false false true false)
      (fun _ _ => Except.ok ()) Permission.default Permission.granted
      "hello" none rfl (by decide)⟩

/-- C10: the hook state starts with every capability flag false; the
one-time detection effect is the only transition, it runs only from the
undetected state, it sets the flags to `checkCapabilities env`, and no
further transition exists afterwards — so the flags change at most once
per session, in any environment. -/
theorem capabilities_single_detection (env : Env) (s s2 : RouterState)
    (h : Step env s s2) :
    initialState.capabilities =
      { isNative := false, hasFileSystem := false, hasNotifications := false,
        hasClipboard := false, hasDialog := false, hasShell := false } ∧
    s.detected = false ∧
    s2 = { detected := true, capabilities := checkCapabilities env } ∧
    (∀ s3, ¬ Step env s2 s3) := by
  cases h with
  | detect hdet =>
    refine ⟨rfl, hdet, rfl, ?_⟩
    intro s3 hstep
    cases hstep with
    | detect habs => simp at habs

/-- Witness for C10: the detection step from the mount state in a plain
browser environment. -/
theorem capabilities_single_detection_witness :
    Step (Env.mk false false false false) initialState
      { detected := true, capabilities := checkCapabilities (Env.mk false false false false) } ∧
    (initialState.capabilities =
      { isNative := false, hasFileSystem := false, hasNotifications := false,
        hasClipboard := false, hasDialog := false, hasShell := false } ∧
    initialState.detected = false ∧
    ({ detected := true, capabilities := checkCapabilities (Env.mk false false false false) } : RouterState) =
      { detected := true, capabilities := checkCapabilities (Env.mk false false false false) } ∧
    (∀ s3, ¬ Step (Env.mk false false false false)
      { detected := true, capabilities := checkCapabilities (Env.mk false false false false) } s3)) :=
  ⟨Step.detect initialState rfl,
    capabilities_single_detection (Env.mk false false false false) initialState
      { detected := true, capabilities := checkCapabilities (Env.mk false false false false) }
      (Step.detect initialState rfl)⟩

/-- C1 counterexample: in the environment where `__TAURI_NATIVE__` is set
but the `__TAURI__` invoke object is absent, the predicate that computed
`isNative` is true while the predicate selecting each operation's path is
false — the two predicates disagree, refuting the claim as stated. -/
theorem dispatch_disagrees_with_isNative :
    (checkCapabilities (Env.mk true false false false)).isNative = true ∧
    readFileUsesNative (Env.mk true false false false) = false ∧
    (checkCapabilities (Env.mk true false false false)).isNative ≠
      readFileUsesNative (Env.mk true false false false) := by
  refine ⟨rfl, rfl, ?_⟩
  decide

/-- C1 amended: all eight operations dispatch on one and the same
predicate — presence of `__TAURI__` — so for a fixed environment a single
provider path is used by every operation; but that predicate agrees with
the `isNative` flag exactly when the presence of `__TAURI_NATIVE__`
implies the presence of `__TAURI__`. -/
theorem dispatch_uniform_and_agreement (env : Env) :
    (readFileUsesNative env = env.tauri ∧
     writeFileUsesNative env = env.tauri ∧
     notifyUsesNative env = env.tauri ∧
     copyToClipboardUsesNative env = env.tauri ∧
     readFromClipboardUsesNative env = env.tauri ∧
     showOpenDialogUsesNative env = env.tauri ∧
     showSaveDialogUsesNative env = env.tauri ∧
     openExternalUsesNative env = env.tauri) ∧
    (readFileUsesNative env = (checkCapabilities env).isNative ↔
      (env.tauriNative = true → env.tauri = true)) := by
  obtain ⟨a, b, c, d⟩ := env
  refine ⟨⟨rfl, rfl, rfl, rfl, rfl, rfl, rfl, rfl⟩, ?_⟩
  cases a <;> cases b <;>
    simp [readFileUsesNative, checkCapabilities]

/-- C9: with `__TAURI_NATIVE__` set and the `__TAURI__` invoke object
absent, `checkCapabilities` reports all six flags true, yet the selector
of every one of the eight operations chooses the browser fallback,
whatever the browser APIs support. -/
theorem phantom_native_marker (notif clip : Bool) :
    checkCapabilities (Env.mk true false notif clip) =
      { isNative := true, hasFileSystem := true, hasNotifications := true,
        hasClipboard := true, hasDialog := true, hasShell := true } ∧
    readFileUsesNative (Env.mk true false notif clip) = false ∧
    writeFileUsesNative (Env.mk true false notif clip) = false ∧
    notifyUsesNative (Env.mk true false notif clip) = false ∧
    copyToClipboardUsesNative (Env.mk true false notif clip) = false ∧
    readFromClipboardUsesNative (Env.mk true false notif clip) = false ∧
    showOpenDialogUsesNative (Env.mk true false notif clip) = false ∧
    showSaveDialogUsesNative (Env.mk true false notif clip) = false ∧
    openExternalUsesNative (Env.mk true false notif clip) = false := by
  refine ⟨?_, rfl, rfl, rfl, rfl, rfl, rfl, rfl, rfl⟩
  simp [checkCapabilities]

/-- C2 counterexample: in a browser-fallback session, cancelling the file
picker does not resolve the `showOpenDialog` promise to the empty list —
the code resolves only inside the `change` handler, which cancellation
never fires, so the promise stays pending. -/
theorem openDialog_cancel_not_resolved :
    showOpenDialog (Env.mk false false false false)
        (Except.ok NativeOpenResult.nullResult : Except Unit NativeOpenResult)
        FileDialogAction.cancelled ≠
      PromiseState.resolved ([] : List String) := by
  decide

/-- C2 amended: in a browser-fallback session `showOpenDialog` never
rejects; on cancellation its promise never settles (it stays pending
rather than resolving to the empty list); on a selection it resolves
with the chosen file names. -/
theorem openDialog_browser_outcomes {ε : Type} (env : Env)
    (nativeOpen : Except ε NativeOpenResult) (action : FileDialogAction)
    (h : env.tauri = false) :
    showOpenDialog env nativeOpen action ≠ PromiseState.rejected ∧
    showOpenDialog env nativeOpen FileDialogAction.cancelled =
      PromiseState.pending ∧
    (∀ fs, showOpenDialog env nativeOpen (FileDialogAction.selected fs) =
      PromiseState.resolved fs) := by
  refine ⟨?_, ?_, ?_⟩
  · cases action <;> simp [showOpenDialog, h, showOpenDialogBrowser]
  · simp [showOpenDialog, h, showOpenDialogBrowser]
  · intro fs
    simp [showOpenDialog, h, showOpenDialogBrowser]

/-- Witness for the amended C2 at a concrete browser environment and a
concrete cancellation. -/
theorem openDialog_browser_outcomes_witness :
    (Env.mk false false false false).tauri = false ∧
    (showOpenDialog (Env.mk false false false false)
        (Except.ok NativeOpenResult.nullResult : Except Unit NativeOpenResult)
        FileDialogAction.cancelled ≠ PromiseState.rejected ∧
     showOpenDialog (Env.mk false false false false)
        (Except.ok NativeOpenResult.nullResult : Except Unit NativeOpenResult)
        FileDialogAction.cancelled = PromiseState.pending ∧
     (∀ fs, showOpenDialog (Env.mk false false false false)
        (Except.ok NativeOpenResult.nullResult : Except Unit NativeOpenResult)
        (FileDialogAction.selected fs) = PromiseState.resolved fs)) :=
  ⟨rfl, openDialog_browser_outcomes (Env.mk false false false false)
    (Except.ok NativeOpenResult.nullResult) FileDialogAction.cancelled rfl⟩

end ZosSdk
